import Mathlib

/-!
Shallow embedding of the application-submission and scoring hooks of the
atsscore frontend (hooks/useHRApplications.ts and hooks/useApplications.ts).

Backend tables (resumes, applications) are modelled as explicit lists of rows;
each backend / storage / HTTP call is given an outcome oracle (a field of an
environment structure) so that success and failure of every I/O step can be
quantified over.  Every operation returns, besides its result, the new backend
state and a trace of the external calls it performed.
-/

namespace ATS

/-- Application status values used by both hooks. -/
inductive AppStatus
  | pending
  | reviewed
  | accepted
  | rejected
deriving DecidableEq, Repr

/-- Shape of the JSON body returned by POST /analyze-resume on success:
ats_score, predicted_category, confidence. -/
structure ScoreResponse where
  ats_score : Rat
  predicted_category : String
  confidence : Rat
deriving DecidableEq, Repr

/-- Row of the applications table, with the columns the two hooks read and
write (id, job_id, user_id, status, applied_at, cover_letter and the four
scoring columns). -/
structure ApplicationRow where
  id : String
  job_id : String
  user_id : String
  status : AppStatus
  applied_at : Nat
  cover_letter : Option String
  ats_score : Option Rat
  predicted_category : Option String
  confidence_score : Option Rat
  ats_calculated_at : Option Nat
deriving DecidableEq, Repr

/-- Row of the resumes table.  In the generated schema file_path and file_name
are non-nullable strings, so the JS falsiness test on file_path can only fire
on the empty string. -/
structure ResumeRow where
  user_id : String
  file_path : String
  file_name : String
  uploaded_at : Nat
deriving DecidableEq, Repr

/-- Backend database state visible to the hooks. -/
structure DB where
  resumes : List ResumeRow
  applications : List ApplicationRow
deriving DecidableEq, Repr

/-- External calls a hook can perform, recorded as a trace. -/
inductive Effect
  | storageDownload (bucket : String) (path : String)
  | httpPost (url : String) (fields : List (String × String))
  | dbUpdateScoring (appId : String) (score : Rat) (category : String)
      (confidence : Rat) (calculatedAt : Nat)
  | dbInsertApplication (jobId : String) (userId : String) (status : AppStatus)
      (coverLetter : Option String)
  | dbUpdateStatus (appId : String) (status : AppStatus)
  | storageCreateSignedUrl (bucket : String) (path : String) (expiresIn : Nat)
deriving DecidableEq, Repr

/-- Base URL hard-coded in hooks/useHRApplications.ts. -/
def ATS_API_URL_HR : String := "https://atsscore-production.up.railway.app"

/-- Base URL hard-coded in hooks/useApplications.ts. -/
def ATS_API_URL_APPLICANT : String := "https://atsscore-production-1ce3.up.railway.app"

/-- Outcome of the storage download of the resume file. -/
inductive DownloadOutcome
  | ok (bytes : String)
  | err
deriving DecidableEq, Repr

/-- Outcome of the scoring HTTP call: ok bundles a 2xx response with its parsed
JSON body; fail covers both a non-2xx status and a network failure, which the
code treats identically (both throw before the write-back). -/
inductive HttpOutcome
  | ok (resp : ScoreResponse)
  | fail
deriving DecidableEq, Repr

/-- Oracles for the three I/O steps of a scoring invocation, plus the clock
value used for ats_calculated_at. -/
structure ScoringEnv where
  download : DownloadOutcome
  http : HttpOutcome
  updateOk : Bool
  now : Nat
deriving DecidableEq, Repr

/-- Boolean: every step of the scoring flow succeeds for this environment. -/
def scoringSucceedsB (env : ScoringEnv) : Bool :=
  match env.download, env.http with
  | .ok _, .ok _ => env.updateOk
  | _, _ => false

/-- Effect of the scoring write-back on one row: the row whose id matches gets
all four scoring columns set from the response and the clock; any other row is
untouched. -/
def patchScoring (appId : String) (r : ScoreResponse) (calculatedAt : Nat)
    (a : ApplicationRow) : ApplicationRow :=
  if a.id = appId then
    { a with
      ats_score := some r.ats_score
      predicted_category := some r.predicted_category
      confidence_score := some r.confidence
      ats_calculated_at := some calculatedAt }
  else a

/-- Backend effect of `update({four scoring columns}).eq('id', appId)`. -/
def applyScoringUpdate (db : DB) (appId : String) (r : ScoreResponse)
    (calculatedAt : Nat) : DB :=
  { db with applications := db.applications.map (patchScoring appId r calculatedAt) }

/-- Embeds calculateAndSaveAtsScore from hooks/useApplications.ts: download the
resume from the resumes storage bucket, POST multipart form data with fields
job_description and resume_file to the applicant-side base URL, then write the
three response values plus the current time back onto the application row; a
failure of any step throws (here: returns .error) and leaves the database
unchanged. -/
def calculateAndSaveAtsScore (env : ScoringEnv) (db : DB)
    (applicationId jobDescription resumeFilePath : String) :
    Except Unit ScoreResponse × DB × List Effect :=
  let tr0 := [Effect.storageDownload "resumes" resumeFilePath]
  match env.download with
  | .err => (.error (), db, tr0)
  | .ok bytes =>
    let fields := [("job_description", jobDescription), ("resume_file", bytes)]
    let tr1 := tr0 ++ [Effect.httpPost (ATS_API_URL_APPLICANT ++ "/analyze-resume") fields]
    match env.http with
    | .fail => (.error (), db, tr1)
    | .ok r =>
      let tr2 := tr1 ++ [Effect.dbUpdateScoring applicationId r.ats_score
        r.predicted_category r.confidence env.now]
      if env.updateOk then
        (.ok r, applyScoringUpdate db applicationId r env.now, tr2)
      else
        (.error (), db, tr2)

/-- Row of the HR dashboard's local cache (ApplicationWithDetails in
hooks/useHRApplications.ts), as returned by get_hr_applications_with_ats. -/
structure ApplicationWithDetails where
  application_id : String
  job_id : String
  user_id : String
  status : AppStatus
  applied_at : Nat
  cover_letter : Option String
  ats_score : Option Rat
  predicted_category : Option String
  confidence_score : Option Rat
  ats_calculated_at : Option Nat
  job_title : String
  job_company : String
  job_location : String
  job_type : String
  job_salary : Option String
  job_description : String
  first_name : String
  last_name : String
  email : Option String
  phone : Option String
  applicant_company : Option String
  applicant_position : Option String
  resume_file_name : Option String
  resume_file_path : Option String
  resume_uploaded_at : Option Nat
deriving DecidableEq, Repr

/-- Result shape of the HR hook's calculateAtsScore: a success flag and, on
success, the parsed scoring response.  (The error-message string of the failure
branch carries no information the claims use and is elided.) -/
structure HRCallResult where
  success : Bool
  data : Option ScoreResponse
deriving DecidableEq, Repr

/-- Local-cache counterpart of the scoring write-back in the HR hook. -/
def patchCacheScoring (appId : String) (r : ScoreResponse) (calculatedAt : Nat)
    (a : ApplicationWithDetails) : ApplicationWithDetails :=
  if a.application_id = appId then
    { a with
      ats_score := some r.ats_score
      predicted_category := some r.predicted_category
      confidence_score := some r.confidence
      ats_calculated_at := some calculatedAt }
  else a

/-- Embeds calculateAtsScore from hooks/useHRApplications.ts: same download,
multipart POST and four-column write-back as calculateAndSaveAtsScore, but
against the HR-side base URL; errors are caught and reported as a success flag
instead of being rethrown, and on full success the local cache row is patched
as well. -/
def calculateAtsScore (env : ScoringEnv) (db : DB)
    (cache : List ApplicationWithDetails)
    (applicationId jobDescription resumeFilePath : String) :
    HRCallResult × DB × List ApplicationWithDetails × List Effect :=
  let tr0 := [Effect.storageDownload "resumes" resumeFilePath]
  match env.download with
  | .err => ({ success := false, data := none }, db, cache, tr0)
  | .ok bytes =>
    let fields := [("job_description", jobDescription), ("resume_file", bytes)]
    let tr1 := tr0 ++ [Effect.httpPost (ATS_API_URL_HR ++ "/analyze-resume") fields]
    match env.http with
    | .fail => ({ success := false, data := none }, db, cache, tr1)
    | .ok r =>
      let tr2 := tr1 ++ [Effect.dbUpdateScoring applicationId r.ats_score
        r.predicted_category r.confidence env.now]
      if env.updateOk then
        ({ success := true, data := some r },
         applyScoringUpdate db applicationId r env.now,
         cache.map (patchCacheScoring applicationId r env.now), tr2)
      else
        ({ success := false, data := none }, db, cache, tr2)

/-- Oracle for createSignedUrl: some url when the call succeeds, none when the
storage service reports an error (the hook then returns null). -/
structure SignedUrlEnv where
  result : Option String
deriving DecidableEq, Repr

/-- Embeds getResumeDownloadUrl from hooks/useHRApplications.ts: a falsy
(empty) file path returns null at once with no storage call; otherwise
createSignedUrl is invoked on the resumes bucket with a 3600-second expiry, and
a storage error degrades to null. -/
def getResumeDownloadUrl (env : SignedUrlEnv) (filePath : String) :
    Option String × List Effect :=
  if filePath = "" then (none, [])
  else
    (env.result, [Effect.storageCreateSignedUrl "resumes" filePath 3600])

/-- Oracle for the status-update backend call: some message models a backend
error (whose message the hook reports), none models success. -/
structure StatusUpdateEnv where
  updateError : Option String
deriving DecidableEq, Repr

/-- Result shape of updateApplicationStatus. -/
structure StatusUpdateResult where
  success : Bool
  error : Option String
deriving DecidableEq, Repr

/-- Local-cache patch used on the success path of updateApplicationStatus:
only the status field changes. -/
def setStatus (newStatus : AppStatus) (a : ApplicationWithDetails) :
    ApplicationWithDetails :=
  { a with status := newStatus }

/-- Backend effect of `update({status}).eq('id', applicationId)`. -/
def dbSetStatus (db : DB) (appId : String) (s : AppStatus) : DB :=
  { db with applications :=
      db.applications.map (fun a => if a.id = appId then { a with status := s } else a) }

/-- Embeds updateApplicationStatus from hooks/useHRApplications.ts: run the
backend status update; on error return success=false with the error message
and touch nothing locally; on success map the local cache, replacing the
status of the row whose application_id matches. -/
def updateApplicationStatus (env : StatusUpdateEnv) (db : DB)
    (cache : List ApplicationWithDetails) (applicationId : String)
    (newStatus : AppStatus) :
    StatusUpdateResult × DB × List ApplicationWithDetails × List Effect :=
  let tr := [Effect.dbUpdateStatus applicationId newStatus]
  match env.updateError with
  | some msg => ({ success := false, error := some msg }, db, cache, tr)
  | none =>
    ({ success := true, error := none },
     dbSetStatus db applicationId newStatus,
     cache.map (fun a => if a.application_id = applicationId then setStatus newStatus a else a),
     tr)

/-- Result of `order('uploaded_at', descending).limit(1).maybeSingle()` over a
list of resume rows: the row with the greatest uploaded_at, none on an empty
list. -/
def latestResume : List ResumeRow → Option ResumeRow
  | [] => none
  | r :: rs =>
    match latestResume rs with
    | none => some r
    | some b => if r.uploaded_at < b.uploaded_at then some b else some r

/-- Rows of the resumes table belonging to one user. -/
def userResumes (db : DB) (uid : String) : List ResumeRow :=
  db.resumes.filter (fun r => r.user_id == uid)

/-- Result of the duplicate-application lookup
`eq('job_id', jobId).eq('user_id', uid).maybeSingle()` on success: some row
exactly when an application links this user and this job. -/
def findApplication (db : DB) (jobId uid : String) : Option ApplicationRow :=
  (db.applications.filter (fun a => a.job_id == jobId && a.user_id == uid)).head?

/-- Number of application rows linking one (job, user) pair. -/
def pairCount (db : DB) (jobId uid : String) : Nat :=
  (db.applications.filter (fun a => a.job_id == jobId && a.user_id == uid)).length

/-- Errors thrown by applyToJobMutation.mutationFn, by throw site: the login
guard, the RESUME_REQUIRED throw, the already-applied throw, and a rethrown
insert error with its message. -/
inductive SubmitError
  | notLoggedIn
  | resumeRequired
  | duplicateApplication
  | insertFailed (message : String)
deriving DecidableEq, Repr

/-- Oracle for the application insert: the fresh row id on success, the
backend error message on failure. -/
inductive InsertOutcome
  | ok (newId : String)
  | err (message : String)
deriving DecidableEq, Repr

/-- Oracles for one applyToJob invocation: I/O success of the resume lookup,
I/O success of the duplicate lookup, the insert outcome, the clock value used
for applied_at, and the scoring sub-flow's oracles. -/
structure SubmitEnv where
  resumeLookupOk : Bool
  dupLookupOk : Bool
  insert : InsertOutcome
  now : Nat
  scoring : ScoringEnv
deriving DecidableEq, Repr

/-- JS coercion `s || null`: an absent or empty string becomes null. -/
def jsOrNull (s : Option String) : Option String :=
  match s with
  | some c => if c = "" then none else some c
  | none => none

/-- Row inserted by applyToJobMutation: status pending, cover_letter from the
`coverLetter || null` coercion, all four scoring columns null, applied_at
defaulted to the current time. -/
def newApplication (newId jobId uid : String) (coverLetter : Option String)
    (now : Nat) : ApplicationRow :=
  { id := newId
    job_id := jobId
    user_id := uid
    status := .pending
    applied_at := now
    cover_letter := jsOrNull coverLetter
    ats_score := none
    predicted_category := none
    confidence_score := none
    ats_calculated_at := none }

/-- Net effect of the swallowed scoring attempt on the freshly inserted row:
patched with the response when every scoring step succeeds, untouched
otherwise. -/
def scoringOutcomePatch (env : ScoringEnv) (a : ApplicationRow) : ApplicationRow :=
  match env.download, env.http with
  | .ok _, .ok r =>
    if env.updateOk then patchScoring a.id r env.now a else a
  | _, _ => a

/-- Embeds applyToJobMutation.mutationFn from hooks/useApplications.ts.  In
order: the login guard; the resume lookup, where an I/O error, an absent row
and an empty file_path all throw RESUME_REQUIRED; the duplicate lookup, whose
I/O error is silently ignored (only data is destructured); the insert of a
pending application with the coerced cover letter; and the scoring sub-flow,
whose exceptions are caught and discarded so that the mutation still resolves
with the new row. -/
def applyToJob (env : SubmitEnv) (db : DB) (userId : Option String)
    (jobId jobDescription : String) (coverLetter : Option String) :
    Except SubmitError String × DB × List Effect :=
  match userId with
  | none => (.error .notLoggedIn, db, [])
  | some uid =>
    if env.resumeLookupOk then
      match latestResume (userResumes db uid) with
      | none => (.error .resumeRequired, db, [])
      | some resume =>
        if resume.file_path = "" then (.error .resumeRequired, db, [])
        else
          match (if env.dupLookupOk then findApplication db jobId uid else none) with
          | some _ => (.error .duplicateApplication, db, [])
          | none =>
            let insEff := Effect.dbInsertApplication jobId uid .pending (jsOrNull coverLetter)
            match env.insert with
            | .err msg => (.error (.insertFailed msg), db, [insEff])
            | .ok newId =>
              let app := newApplication newId jobId uid coverLetter env.now
              let db1 : DB := { db with applications := db.applications ++ [app] }
              let out := calculateAndSaveAtsScore env.scoring db1 newId
                jobDescription resume.file_path
              (.ok newId, out.2.1, insEff :: out.2.2)
    else (.error .resumeRequired, db, [])

/-- Erase the base URL of an httpPost effect, for comparing the two scoring
call sites up to their hard-coded endpoints. -/
def stripPostUrl : Effect → Effect
  | .httpPost _ fields => .httpPost "" fields
  | e => e

/-- Boolean recogniser of the scoring write-back effect. -/
def isScoringWrite : Effect → Bool
  | .dbUpdateScoring _ _ _ _ _ => true
  | _ => false

/-! Concrete sample states and environments used by witnesses and
counterexamples. -/

/-- Resume row with an empty stored file reference. -/
def resumeRowEmptyPath : ResumeRow :=
  { user_id := "u1", file_path := "", file_name := "cv.pdf", uploaded_at := 1 }

/-- Resume row with a valid stored file reference. -/
def resumeRowOk : ResumeRow :=
  { user_id := "u1", file_path := "u1/cv.pdf", file_name := "cv.pdf", uploaded_at := 1 }

/-- State with one resume row whose file reference is empty and no
applications. -/
def dbEmptyPath : DB := { resumes := [resumeRowEmptyPath], applications := [] }

/-- State with one valid resume row and no applications. -/
def dbNoApp : DB := { resumes := [resumeRowOk], applications := [] }

/-- An existing application linking user u1 and job j1. -/
def appExisting : ApplicationRow :=
  { id := "a0", job_id := "j1", user_id := "u1", status := .pending, applied_at := 2,
    cover_letter := none, ats_score := none, predicted_category := none,
    confidence_score := none, ats_calculated_at := none }

/-- State with one valid resume row and the existing application for (j1, u1). -/
def dbWithApp : DB := { resumes := [resumeRowOk], applications := [appExisting] }

/-- Sample scoring response. -/
def respW : ScoreResponse :=
  { ats_score := 87, predicted_category := "Software Engineering", confidence := 91 / 100 }

/-- Scoring environment in which the download already fails. -/
def scoringFailEnv : ScoringEnv :=
  { download := .err, http := .fail, updateOk := false, now := 9 }

/-- Scoring environment in which every step succeeds. -/
def scoringOkEnv : ScoringEnv :=
  { download := .ok "BYTES", http := .ok respW, updateOk := true, now := 9 }

/-- Submission environment: all backend lookups succeed, the insert yields id
app1, the scoring sub-flow fails at the download. -/
def submitEnvScoreFail : SubmitEnv :=
  { resumeLookupOk := true, dupLookupOk := true, insert := .ok "app1", now := 5,
    scoring := scoringFailEnv }

/-- Submission environment: all backend steps and the scoring flow succeed. -/
def submitEnvAllOk : SubmitEnv :=
  { resumeLookupOk := true, dupLookupOk := true, insert := .ok "app1", now := 5,
    scoring := scoringOkEnv }

/-- Submission environment whose resume lookup fails with an I/O error. -/
def submitEnvResumeLookupErr : SubmitEnv :=
  { resumeLookupOk := false, dupLookupOk := true, insert := .ok "app1", now := 5,
    scoring := scoringFailEnv }

/-- Submission environment whose duplicate lookup fails with an I/O error. -/
def submitEnvDupLookupErr : SubmitEnv :=
  { resumeLookupOk := true, dupLookupOk := false, insert := .ok "app1", now := 5,
    scoring := scoringFailEnv }

/-- Submission environment whose application insert fails. -/
def submitEnvInsertErr : SubmitEnv :=
  { resumeLookupOk := true, dupLookupOk := true, insert := .err "backend unreachable",
    now := 5, scoring := scoringFailEnv }

/-- An application that already carries a full scoring triple and timestamp. -/
def appScored : ApplicationRow :=
  { id := "a0", job_id := "j1", user_id := "u1", status := .reviewed, applied_at := 2,
    cover_letter := none, ats_score := some 50, predicted_category := some "Old Category",
    confidence_score := some (1 / 2), ats_calculated_at := some 3 }

/-- State holding the already-scored application. -/
def dbScored : DB := { resumes := [resumeRowOk], applications := [appScored] }

/-! Helper lemmas. -/

/-- A row selected by latestResume is a member of the queried list. -/
theorem latestResume_mem {l : List ResumeRow} {r : ResumeRow}
    (h : latestResume l = some r) : r ∈ l := by
  induction l with
  | nil => simp [latestResume] at h
  | cons a rs ih =>
    rw [latestResume] at h
    split at h
    · obtain rfl := Option.some.inj h
      exact List.mem_cons_self a rs
    · rename_i b hre
      by_cases hc : a.uploaded_at < b.uploaded_at
      · rw [if_pos hc] at h
        obtain rfl := Option.some.inj h
        exact List.mem_cons_of_mem a (ih hre)
      · rw [if_neg hc] at h
        obtain rfl := Option.some.inj h
        exact List.mem_cons_self a rs

/-- Mapping a function that fixes every member of a list is the identity. -/
theorem map_fix_of_mem {α : Type} {f : α → α} {l : List α}
    (h : ∀ b ∈ l, f b = b) : l.map f = l := by
  induction l with
  | nil => rfl
  | cons a t ih =>
    simp only [List.map_cons]
    rw [h a (List.mem_cons_self a t), ih (fun b hb => h b (List.mem_cons_of_mem a hb))]

/-- Net database effect of the scoring flow run right after an insert: the old
rows (whose ids differ from the fresh id) are untouched and the appended row
receives exactly the scoring-outcome patch. -/
theorem calculateAndSave_apps_append (env : ScoringEnv) (db : DB)
    (app : ApplicationRow) (jd path : String)
    (hfresh : ∀ b ∈ db.applications, b.id ≠ app.id) :
    (calculateAndSaveAtsScore env
        { db with applications := db.applications ++ [app] }
        app.id jd path).2.1.applications
      = db.applications ++ [scoringOutcomePatch env app] := by
  cases hd : env.download with
  | err => simp [calculateAndSaveAtsScore, hd, scoringOutcomePatch]
  | ok bytes =>
    cases hh : env.http with
    | fail => simp [calculateAndSaveAtsScore, hd, hh, scoringOutcomePatch]
    | ok r =>
      cases hu : env.updateOk with
      | false => simp [calculateAndSaveAtsScore, hd, hh, hu, scoringOutcomePatch]
      | true =>
        have hmap : db.applications.map (patchScoring app.id r env.now) = db.applications :=
          map_fix_of_mem (fun b hb => by simp [patchScoring, hfresh b hb])
        simp [calculateAndSaveAtsScore, hd, hh, hu, scoringOutcomePatch,
          applyScoringUpdate, hmap]

/-- Dissecting membership in userResumes. -/
theorem mem_userResumes {db : DB} {uid : String} {r : ResumeRow}
    (h : r ∈ userResumes db uid) : r ∈ db.resumes ∧ r.user_id = uid := by
  have h2 := List.mem_filter.mp h
  exact ⟨h2.1, by simpa using h2.2⟩

/-- When some scoring step fails, the net patch on the inserted row is the
identity. -/
theorem scoringOutcomePatch_of_fail {env : ScoringEnv}
    (h : scoringSucceedsB env = false) (a : ApplicationRow) :
    scoringOutcomePatch env a = a := by
  cases hd : env.download <;> cases hh : env.http <;>
    simp_all [scoringSucceedsB, scoringOutcomePatch]

/-- Success path of applyToJob: with a logged-in user, a successful resume
lookup yielding a row with a non-empty file reference, no duplicate found by a
duplicate lookup that either succeeds finding nothing or has its error
swallowed, and a successful insert of a fresh id, the mutation resolves with
the new id and the table gains exactly the inserted row, as patched by the
scoring outcome. -/
theorem applyToJob_success (env : SubmitEnv) (db : DB) (uid jobId jd : String)
    (cl : Option String) (r : ResumeRow) (newId : String)
    (hres : env.resumeLookupOk = true)
    (hr : latestResume (userResumes db uid) = some r)
    (hpath : r.file_path ≠ "")
    (hnodup : env.dupLookupOk = true → findApplication db jobId uid = none)
    (hins : env.insert = .ok newId)
    (hfresh : ∀ b ∈ db.applications, b.id ≠ newId) :
    (applyToJob env db (some uid) jobId jd cl).1 = .ok newId ∧
    (applyToJob env db (some uid) jobId jd cl).2.1.applications
      = db.applications
          ++ [scoringOutcomePatch env.scoring (newApplication newId jobId uid cl env.now)] := by
  have hscrut : (if env.dupLookupOk then findApplication db jobId uid else none) = none := by
    cases hdl : env.dupLookupOk with
    | false => simp
    | true => simpa using hnodup hdl
  have happs := calculateAndSave_apps_append env.scoring db
    (newApplication newId jobId uid cl env.now) jd r.file_path
    (fun b hb => by simpa [newApplication] using hfresh b hb)
  constructor
  · simp [applyToJob, hres, hr, hpath, hscrut, hins]
  · simp only [applyToJob, hres, hr, hpath, hscrut, hins, if_true]
    simpa [newApplication] using happs

/-! Claim theorems. -/

/-- C2: an applicant with no stored resume row carrying a non-empty file
reference always gets ResumeRequiredError from applyToJob — before the
duplicate check (the applications table and the duplicate-lookup oracle are
unconstrained here) — with the database unchanged and no external call made. -/
theorem submit_without_resume_fails (env : SubmitEnv) (db : DB)
    (uid jobId jd : String) (cl : Option String)
    (hnores : ∀ r ∈ db.resumes, r.user_id = uid → r.file_path = "") :
    applyToJob env db (some uid) jobId jd cl = (.error .resumeRequired, db, []) := by
  simp only [applyToJob]
  cases hok : env.resumeLookupOk with
  | false => simp
  | true =>
    simp only [if_true]
    cases hlr : latestResume (userResumes db uid) with
    | none => simp
    | some r =>
      have hr := mem_userResumes (latestResume_mem hlr)
      have hpath : r.file_path = "" := hnores r hr.1 hr.2
      simp [hpath]

/-- Witness for C2 at a concrete state: one stored resume row with an empty
file reference. -/
theorem submit_without_resume_fails_witness :
    applyToJob submitEnvScoreFail dbEmptyPath (some "u1") "j1" "desc" none
      = (.error .resumeRequired, dbEmptyPath, []) :=
  submit_without_resume_fails submitEnvScoreFail dbEmptyPath "u1" "j1" "desc" none
    (by decide)

/-- C1 counterexample: with a valid resume, no existing application and a
supplied — but empty — cover letter, the submission succeeds yet the created
application stores a null cover letter, not the supplied one, because of the
coverLetter-or-null coercion. -/
theorem submit_empty_cover_letter_stored_null :
    (applyToJob submitEnvScoreFail dbNoApp (some "u1") "j1" "desc" (some "")).1
      = .ok "app1" ∧
    (applyToJob submitEnvScoreFail dbNoApp (some "u1") "j1" "desc" (some "")).2.1.applications.map
        (fun a => a.cover_letter)
      = [none] ∧
    (some "" : Option String) ≠ none := by
  refine ⟨rfl, rfl, by decide⟩

/-- C1 (amended): given a logged-in applicant whose latest resume carries a
non-empty file reference, successful precondition lookups finding no duplicate,
and a successful insert of a fresh id, applyToJob reports success with the new
id regardless of the scoring outcome, and the applications table gains exactly
one row: the inserted application, created with status pending, all four
scoring fields null, and the supplied cover letter when it is non-empty (an
absent or empty cover letter is stored as null), then patched only by the
scoring outcome. -/
theorem submit_creates_pending_application (env : SubmitEnv) (db : DB)
    (uid jobId jd : String) (cl : Option String) (r : ResumeRow) (newId : String)
    (hres : env.resumeLookupOk = true)
    (hr : latestResume (userResumes db uid) = some r)
    (hpath : r.file_path ≠ "")
    (hdup : env.dupLookupOk = true)
    (hnodup : findApplication db jobId uid = none)
    (hins : env.insert = .ok newId)
    (hfresh : ∀ b ∈ db.applications, b.id ≠ newId) :
    (applyToJob env db (some uid) jobId jd cl).1 = .ok newId ∧
    (applyToJob env db (some uid) jobId jd cl).2.1.applications
      = db.applications
          ++ [scoringOutcomePatch env.scoring (newApplication newId jobId uid cl env.now)] ∧
    (newApplication newId jobId uid cl env.now).status = .pending ∧
    (newApplication newId jobId uid cl env.now).ats_score = none ∧
    (newApplication newId jobId uid cl env.now).predicted_category = none ∧
    (newApplication newId jobId uid cl env.now).confidence_score = none ∧
    (newApplication newId jobId uid cl env.now).ats_calculated_at = none ∧
    (newApplication newId jobId uid cl env.now).cover_letter
      = (if cl = some "" then none else cl) := by
  obtain ⟨h1, h2⟩ := applyToJob_success env db uid jobId jd cl r newId hres hr hpath
    (fun _ => hnodup) hins hfresh
  refine ⟨h1, h2, rfl, rfl, rfl, rfl, rfl, ?_⟩
  cases cl with
  | none => simp [newApplication, jsOrNull]
  | some c =>
    by_cases hc : c = "" <;> simp [newApplication, jsOrNull, hc]

/-- Witness for the amended C1 at a concrete state where every step including
scoring succeeds. -/
theorem submit_creates_pending_application_witness :
    (applyToJob submitEnvAllOk dbNoApp (some "u1") "j1" "desc" (some "hello")).1
      = .ok "app1" ∧
    (applyToJob submitEnvAllOk dbNoApp (some "u1") "j1" "desc" (some "hello")).2.1.applications
      = [scoringOutcomePatch scoringOkEnv (newApplication "app1" "j1" "u1" (some "hello") 5)] := by
  have h := submit_creates_pending_application submitEnvAllOk dbNoApp "u1" "j1" "desc"
    (some "hello") resumeRowOk "app1" rfl (by decide) (by decide) rfl (by decide) rfl
    (by decide)
  exact ⟨h.1, h.2.1⟩

/-- C3: when the applicant is able to apply (valid resume, lookups succeed)
and exactly one application already links this (job, user) pair, applyToJob
fails with DuplicateApplicationError, leaves the backend state byte-for-byte
unchanged with no external call, and exactly one application still links the
pair afterwards. -/
theorem duplicate_submit_fails (env : SubmitEnv) (db : DB)
    (uid jobId jd : String) (cl : Option String) (r : ResumeRow)
    (hres : env.resumeLookupOk = true)
    (hr : latestResume (userResumes db uid) = some r)
    (hpath : r.file_path ≠ "")
    (hdup : env.dupLookupOk = true)
    (hone : pairCount db jobId uid = 1) :
    applyToJob env db (some uid) jobId jd cl = (.error .duplicateApplication, db, []) ∧
    pairCount (applyToJob env db (some uid) jobId jd cl).2.1 jobId uid = 1 := by
  have hfind : ∃ a, findApplication db jobId uid = some a := by
    rw [pairCount] at hone
    obtain ⟨a, ha⟩ := List.length_eq_one.mp hone
    exact ⟨a, by rw [findApplication, ha]; rfl⟩
  obtain ⟨a, ha⟩ := hfind
  have hmain : applyToJob env db (some uid) jobId jd cl
      = (.error .duplicateApplication, db, []) := by
    simp [applyToJob, hres, hr, hpath, hdup, ha]
  exact ⟨hmain, by rw [hmain]; exact hone⟩

/-- Witness for C3 at a concrete state with one existing application for the
pair. -/
theorem duplicate_submit_fails_witness :
    applyToJob submitEnvScoreFail dbWithApp (some "u1") "j1" "desc" none
      = (.error .duplicateApplication, dbWithApp, []) ∧
    pairCount (applyToJob submitEnvScoreFail dbWithApp (some "u1") "j1" "desc" none).2.1
        "j1" "u1" = 1 :=
  duplicate_submit_fails submitEnvScoreFail dbWithApp "u1" "j1" "desc" none resumeRowOk
    rfl (by decide) (by decide) rfl (by decide)

/-- C4: under the same success preconditions as C1, if the scoring sub-flow
fails at any step (download, HTTP call, or write-back), the submission still
resolves successfully with the new id and the created application is exactly
the freshly inserted row: status pending, all four scoring fields still null. -/
theorem scoring_failure_isolated (env : SubmitEnv) (db : DB)
    (uid jobId jd : String) (cl : Option String) (r : ResumeRow) (newId : String)
    (hres : env.resumeLookupOk = true)
    (hr : latestResume (userResumes db uid) = some r)
    (hpath : r.file_path ≠ "")
    (hdup : env.dupLookupOk = true)
    (hnodup : findApplication db jobId uid = none)
    (hins : env.insert = .ok newId)
    (hfresh : ∀ b ∈ db.applications, b.id ≠ newId)
    (hfail : scoringSucceedsB env.scoring = false) :
    (applyToJob env db (some uid) jobId jd cl).1 = .ok newId ∧
    (applyToJob env db (some uid) jobId jd cl).2.1.applications
      = db.applications ++ [newApplication newId jobId uid cl env.now] ∧
    (newApplication newId jobId uid cl env.now).status = .pending ∧
    (newApplication newId jobId uid cl env.now).ats_score = none ∧
    (newApplication newId jobId uid cl env.now).predicted_category = none ∧
    (newApplication newId jobId uid cl env.now).confidence_score = none ∧
    (newApplication newId jobId uid cl env.now).ats_calculated_at = none := by
  obtain ⟨h1, h2⟩ := applyToJob_success env db uid jobId jd cl r newId hres hr hpath
    (fun _ => hnodup) hins hfresh
  rw [scoringOutcomePatch_of_fail hfail] at h2
  exact ⟨h1, h2, rfl, rfl, rfl, rfl, rfl⟩

/-- Witness for C4 at a concrete state where the scoring download fails. -/
theorem scoring_failure_isolated_witness :
    (applyToJob submitEnvScoreFail dbNoApp (some "u1") "j1" "desc" none).1 = .ok "app1" ∧
    (applyToJob submitEnvScoreFail dbNoApp (some "u1") "j1" "desc" none).2.1.applications
      = [newApplication "app1" "j1" "u1" none 5] := by
  have h := scoring_failure_isolated submitEnvScoreFail dbNoApp "u1" "j1" "desc" none
    resumeRowOk "app1" rfl (by decide) (by decide) rfl (by decide) rfl (by decide) rfl
  exact ⟨h.1, h.2.1⟩

/-- C5 counterexample: at a state with a valid stored resume, a resume-lookup
I/O failure makes applyToJob fail with ResumeRequiredError rather than a
generic failure, and a duplicate-lookup I/O failure is silently ignored: the
call reports success and an application record is created. -/
theorem precondition_io_failure_cex :
    (applyToJob submitEnvResumeLookupErr dbNoApp (some "u1") "j1" "desc" none).1
      = .error .resumeRequired ∧
    (applyToJob submitEnvDupLookupErr dbNoApp (some "u1") "j1" "desc" none).1
      = .ok "app1" ∧
    (applyToJob submitEnvDupLookupErr dbNoApp (some "u1") "j1" "desc" none).2.1.applications.length
      = 1 := by
  refine ⟨rfl, rfl, rfl⟩

/-- C5 (amended): a resume-lookup I/O failure fails the call with
ResumeRequiredError and creates no application; a duplicate-lookup I/O failure
is ignored, so the submission proceeds and (with a successful insert) an
application is created; an insert failure propagates as a generic failure
carrying the backend message, with no application created. -/
theorem precondition_io_failure_behaviour (env : SubmitEnv) (db : DB)
    (uid jobId jd : String) (cl : Option String) :
    (env.resumeLookupOk = false →
      applyToJob env db (some uid) jobId jd cl = (.error .resumeRequired, db, [])) ∧
    (∀ r newId, env.dupLookupOk = false → env.resumeLookupOk = true →
      latestResume (userResumes db uid) = some r → r.file_path ≠ "" →
      env.insert = .ok newId → (∀ b ∈ db.applications, b.id ≠ newId) →
      (applyToJob env db (some uid) jobId jd cl).1 = .ok newId ∧
      (applyToJob env db (some uid) jobId jd cl).2.1.applications
        = db.applications
            ++ [scoringOutcomePatch env.scoring (newApplication newId jobId uid cl env.now)]) ∧
    (∀ r msg, env.resumeLookupOk = true →
      latestResume (userResumes db uid) = some r → r.file_path ≠ "" →
      env.dupLookupOk = true → findApplication db jobId uid = none →
      env.insert = .err msg →
      applyToJob env db (some uid) jobId jd cl
        = (.error (.insertFailed msg), db,
           [Effect.dbInsertApplication jobId uid .pending (jsOrNull cl)])) := by
  refine ⟨?_, ?_, ?_⟩
  · intro h
    simp [applyToJob, h]
  · intro r newId hdl hres hr hpath hins hfresh
    exact applyToJob_success env db uid jobId jd cl r newId hres hr hpath
      (fun ht => absurd ht (by simp [hdl])) hins hfresh
  · intro r msg hres hr hpath hdup hnodup hins
    have hscrut : (if env.dupLookupOk then findApplication db jobId uid else none)
        = none := by
      simp [hdup, hnodup]
    simp [applyToJob, hres, hr, hpath, hscrut, hins]

/-- Witness for the amended C5 at three concrete environments: failing resume
lookup, failing duplicate lookup, failing insert. -/
theorem precondition_io_failure_behaviour_witness :
    applyToJob submitEnvResumeLookupErr dbNoApp (some "u1") "j1" "desc" none
      = (.error .resumeRequired, dbNoApp, []) ∧
    (applyToJob submitEnvDupLookupErr dbNoApp (some "u1") "j1" "desc" none).1
      = .ok "app1" ∧
    applyToJob submitEnvInsertErr dbNoApp (some "u1") "j1" "desc" none
      = (.error (.insertFailed "backend unreachable"), dbNoApp,
         [Effect.dbInsertApplication "j1" "u1" .pending none]) := by
  refine ⟨?_, ?_, ?_⟩
  · exact (precondition_io_failure_behaviour submitEnvResumeLookupErr dbNoApp
      "u1" "j1" "desc" none).1 rfl
  · exact ((precondition_io_failure_behaviour submitEnvDupLookupErr dbNoApp
      "u1" "j1" "desc" none).2.1 resumeRowOk "app1" rfl rfl (by decide) (by decide)
      rfl (by decide)).1
  · exact (precondition_io_failure_behaviour submitEnvInsertErr dbNoApp
      "u1" "j1" "desc" none).2.2 resumeRowOk "backend unreachable" rfl (by decide)
      (by decide) rfl (by decide) rfl

/-- C8: getResumeDownloadUrl on an empty file path returns null with no
storage call; on a non-empty path it requests a signed URL on the resumes
bucket with a 3600-second expiry. -/
theorem getResumeDownloadUrl_spec (env : SignedUrlEnv) (filePath : String) :
    (filePath = "" → getResumeDownloadUrl env filePath = (none, [])) ∧
    (filePath ≠ "" →
      getResumeDownloadUrl env filePath
        = (env.result, [Effect.storageCreateSignedUrl "resumes" filePath 3600])) := by
  constructor
  · intro h; simp [getResumeDownloadUrl, h]
  · intro h; simp [getResumeDownloadUrl, h]

/-- Witness for C8 at an empty and a non-empty file path. -/
theorem getResumeDownloadUrl_spec_witness :
    getResumeDownloadUrl { result := some "https://signed.example" } "" = (none, []) ∧
    getResumeDownloadUrl { result := some "https://signed.example" } "cv.pdf"
      = (some "https://signed.example",
         [Effect.storageCreateSignedUrl "resumes" "cv.pdf" 3600]) :=
  ⟨(getResumeDownloadUrl_spec { result := some "https://signed.example" } "").1 rfl,
   (getResumeDownloadUrl_spec { result := some "https://signed.example" } "cv.pdf").2
     (by decide)⟩

/-- C6: re-invoking either scoring entry point on an already-scored
application is last-write-wins and all-or-nothing: on any step failure the
backend state is untouched, and on full success the one write-back sets all
four scoring fields of the targeted row together (to the response triple and
the clock) while leaving its other fields, and every row with a different id,
unchanged; the trace carries exactly one scoring write. -/
theorem rescoring_overwrites_all_four (env : ScoringEnv) (db : DB)
    (cache : List ApplicationWithDetails) (appId jd path : String)
    (a : ApplicationRow) (ha : a ∈ db.applications) (haid : a.id = appId)
    (hscored : a.ats_score.isSome = true ∧ a.predicted_category.isSome = true ∧
      a.confidence_score.isSome = true ∧ a.ats_calculated_at.isSome = true) :
    (scoringSucceedsB env = false →
      (calculateAndSaveAtsScore env db appId jd path).2.1 = db ∧
      (calculateAtsScore env db cache appId jd path).2.1 = db) ∧
    (∀ bytes resp, env.download = .ok bytes → env.http = .ok resp →
      env.updateOk = true →
      (calculateAndSaveAtsScore env db appId jd path).2.1.applications
        = db.applications.map (patchScoring appId resp env.now) ∧
      (calculateAtsScore env db cache appId jd path).2.1.applications
        = db.applications.map (patchScoring appId resp env.now) ∧
      (patchScoring appId resp env.now a).ats_score = some resp.ats_score ∧
      (patchScoring appId resp env.now a).predicted_category
        = some resp.predicted_category ∧
      (patchScoring appId resp env.now a).confidence_score = some resp.confidence ∧
      (patchScoring appId resp env.now a).ats_calculated_at = some env.now ∧
      (patchScoring appId resp env.now a).id = a.id ∧
      (patchScoring appId resp env.now a).status = a.status ∧
      (patchScoring appId resp env.now a).cover_letter = a.cover_letter ∧
      (∀ b : ApplicationRow, b.id ≠ appId → patchScoring appId resp env.now b = b) ∧
      ((calculateAndSaveAtsScore env db appId jd path).2.2.filter isScoringWrite
        = [Effect.dbUpdateScoring appId resp.ats_score resp.predicted_category
            resp.confidence env.now])) := by
  constructor
  · intro hfail
    cases hd : env.download <;> cases hh : env.http <;>
      simp_all [scoringSucceedsB, calculateAndSaveAtsScore, calculateAtsScore]
  · intro bytes resp hd hh hu
    refine ⟨?_, ?_, ?_, ?_, ?_, ?_, ?_, ?_, ?_, ?_, ?_⟩
    · simp [calculateAndSaveAtsScore, hd, hh, hu, applyScoringUpdate]
    · simp [calculateAtsScore, hd, hh, hu, applyScoringUpdate]
    · simp [patchScoring, haid]
    · simp [patchScoring, haid]
    · simp [patchScoring, haid]
    · simp [patchScoring, haid]
    · simp [patchScoring, haid]
    · simp [patchScoring, haid]
    · simp [patchScoring, haid]
    · intro b hb; simp [patchScoring, hb]
    · simp [calculateAndSaveAtsScore, hd, hh, hu, isScoringWrite]

/-- Witness for C6: one failing and one fully succeeding re-score of the
already-scored application a0. -/
theorem rescoring_overwrites_all_four_witness :
    (calculateAndSaveAtsScore scoringFailEnv dbScored "a0" "desc" "u1/cv.pdf").2.1
      = dbScored ∧
    (calculateAndSaveAtsScore scoringOkEnv dbScored "a0" "desc" "u1/cv.pdf").2.1.applications
      = (dbScored.applications.map (patchScoring "a0" respW 9)) := by
  constructor
  · exact ((rescoring_overwrites_all_four scoringFailEnv dbScored [] "a0" "desc"
      "u1/cv.pdf" appScored (List.mem_cons_self appScored []) rfl (by decide)).1 rfl).1
  · exact ((rescoring_overwrites_all_four scoringOkEnv dbScored [] "a0" "desc"
      "u1/cv.pdf" appScored (List.mem_cons_self appScored []) rfl (by decide)).2 "BYTES" respW rfl rfl rfl).1

/-- C7: the applicant-side scoring flow first downloads the resume from the
resumes bucket and stops there on failure; on a successful download its next
and only HTTP call is a POST to the /analyze-resume endpoint whose multipart
body has exactly the two fields job_description and resume_file (in that
order); a failed HTTP call ends the flow with no further call and no state
change; and on a 2xx response with a successful write the parsed triple plus
the calculated-at timestamp are persisted onto the row identified by the
application id. -/
theorem scoring_flow_steps (env : ScoringEnv) (db : DB) (appId jd path : String) :
    (env.download = .err →
      calculateAndSaveAtsScore env db appId jd path
        = (.error (), db, [Effect.storageDownload "resumes" path])) ∧
    (∀ bytes, env.download = .ok bytes →
      (calculateAndSaveAtsScore env db appId jd path).2.2.take 2
        = [Effect.storageDownload "resumes" path,
           Effect.httpPost (ATS_API_URL_APPLICANT ++ "/analyze-resume")
             [("job_description", jd), ("resume_file", bytes)]]) ∧
    (∀ bytes, env.download = .ok bytes → env.http = .fail →
      calculateAndSaveAtsScore env db appId jd path
        = (.error (), db,
           [Effect.storageDownload "resumes" path,
            Effect.httpPost (ATS_API_URL_APPLICANT ++ "/analyze-resume")
              [("job_description", jd), ("resume_file", bytes)]])) ∧
    (∀ bytes resp, env.download = .ok bytes → env.http = .ok resp →
      env.updateOk = true →
      (calculateAndSaveAtsScore env db appId jd path).1 = .ok resp ∧
      (calculateAndSaveAtsScore env db appId jd path).2.1
        = applyScoringUpdate db appId resp env.now) := by
  refine ⟨?_, ?_, ?_, ?_⟩
  · intro hd
    simp [calculateAndSaveAtsScore, hd]
  · intro bytes hd
    cases hh : env.http with
    | fail => simp [calculateAndSaveAtsScore, hd, hh]
    | ok resp =>
      cases hu : env.updateOk <;> simp [calculateAndSaveAtsScore, hd, hh, hu]
  · intro bytes hd hh
    simp [calculateAndSaveAtsScore, hd, hh]
  · intro bytes resp hd hh hu
    simp [calculateAndSaveAtsScore, hd, hh, hu]

/-- Witness for C7: a failing download, and a full success, at concrete
inputs. -/
theorem scoring_flow_steps_witness :
    calculateAndSaveAtsScore scoringFailEnv dbScored "a0" "desc" "u1/cv.pdf"
      = (.error (), dbScored, [Effect.storageDownload "resumes" "u1/cv.pdf"]) ∧
    (calculateAndSaveAtsScore scoringOkEnv dbScored "a0" "desc" "u1/cv.pdf").1
      = .ok respW ∧
    (calculateAndSaveAtsScore scoringOkEnv dbScored "a0" "desc" "u1/cv.pdf").2.2.take 2
      = [Effect.storageDownload "resumes" "u1/cv.pdf",
         Effect.httpPost (ATS_API_URL_APPLICANT ++ "/analyze-resume")
           [("job_description", "desc"), ("resume_file", "BYTES")]] := by
  refine ⟨?_, ?_, ?_⟩
  · exact (scoring_flow_steps scoringFailEnv dbScored "a0" "desc" "u1/cv.pdf").1 rfl
  · exact ((scoring_flow_steps scoringOkEnv dbScored "a0" "desc" "u1/cv.pdf").2.2.2
      "BYTES" respW rfl rfl rfl).1
  · exact (scoring_flow_steps scoringOkEnv dbScored "a0" "desc" "u1/cv.pdf").2.1
      "BYTES" rfl

/-- C9: the two scoring call sites are hard-coded against different base URLs,
but for equal backend states, inputs and service outcomes they perform the
same download, POST and write-back sequence (their traces agree once the
base URL of the POST is erased), leave identical persisted backend state, and
succeed in exactly the same cases. -/
theorem hr_and_applicant_scoring_agree (env : ScoringEnv) (db : DB)
    (cache : List ApplicationWithDetails) (appId jd path : String) :
    ATS_API_URL_HR ≠ ATS_API_URL_APPLICANT ∧
    (calculateAtsScore env db cache appId jd path).2.1
      = (calculateAndSaveAtsScore env db appId jd path).2.1 ∧
    ((calculateAtsScore env db cache appId jd path).2.2.2.map stripPostUrl
      = (calculateAndSaveAtsScore env db appId jd path).2.2.map stripPostUrl) ∧
    ((calculateAtsScore env db cache appId jd path).1.success = true ↔
      ∃ resp, (calculateAndSaveAtsScore env db appId jd path).1 = .ok resp) := by
  refine ⟨by decide, ?_, ?_, ?_⟩ <;>
    cases hd : env.download <;> cases hh : env.http <;> cases hu : env.updateOk <;>
      simp [calculateAtsScore, calculateAndSaveAtsScore, stripPostUrl, hd, hh, hu]

/-- C10: updateApplicationStatus on a backend error returns success=false with
the error message and leaves the cached list untouched; on success it returns
success=true and rewrites the cache so that a row with a matching
application_id only has its status replaced while rows with any other
application_id, and every non-status field of the matching row, are unchanged. -/
theorem updateApplicationStatus_spec (env : StatusUpdateEnv) (db : DB)
    (cache : List ApplicationWithDetails) (appId : String) (s : AppStatus) :
    (∀ msg, env.updateError = some msg →
      (updateApplicationStatus env db cache appId s).1
          = { success := false, error := some msg } ∧
        (updateApplicationStatus env db cache appId s).2.2.1 = cache ∧
        (updateApplicationStatus env db cache appId s).2.1 = db) ∧
    (env.updateError = none →
      (updateApplicationStatus env db cache appId s).1
          = { success := true, error := none } ∧
        (updateApplicationStatus env db cache appId s).2.2.1
          = cache.map (fun a => if a.application_id = appId then setStatus s a else a)) ∧
    (∀ a : ApplicationWithDetails, a.application_id ≠ appId →
      (if a.application_id = appId then setStatus s a else a) = a) ∧
    (∀ a : ApplicationWithDetails,
      (setStatus s a).status = s ∧
      (setStatus s a).application_id = a.application_id ∧
      (setStatus s a).job_id = a.job_id ∧
      (setStatus s a).user_id = a.user_id ∧
      (setStatus s a).applied_at = a.applied_at ∧
      (setStatus s a).cover_letter = a.cover_letter ∧
      (setStatus s a).ats_score = a.ats_score ∧
      (setStatus s a).predicted_category = a.predicted_category ∧
      (setStatus s a).confidence_score = a.confidence_score ∧
      (setStatus s a).ats_calculated_at = a.ats_calculated_at ∧
      (setStatus s a).job_title = a.job_title ∧
      (setStatus s a).job_company = a.job_company ∧
      (setStatus s a).job_location = a.job_location ∧
      (setStatus s a).job_type = a.job_type ∧
      (setStatus s a).job_salary = a.job_salary ∧
      (setStatus s a).job_description = a.job_description ∧
      (setStatus s a).first_name = a.first_name ∧
      (setStatus s a).last_name = a.last_name ∧
      (setStatus s a).email = a.email ∧
      (setStatus s a).phone = a.phone ∧
      (setStatus s a).applicant_company = a.applicant_company ∧
      (setStatus s a).applicant_position = a.applicant_position ∧
      (setStatus s a).resume_file_name = a.resume_file_name ∧
      (setStatus s a).resume_file_path = a.resume_file_path ∧
      (setStatus s a).resume_uploaded_at = a.resume_uploaded_at) := by
  refine ⟨?_, ?_, ?_, ?_⟩
  · intro msg hmsg
    simp [updateApplicationStatus, hmsg]
  · intro hnone
    simp [updateApplicationStatus, hnone]
  · intro a ha
    rw [if_neg ha]
  · intro a
    refine ⟨rfl, rfl, rfl, rfl, rfl, rfl, rfl, rfl, rfl, rfl, rfl, rfl, rfl,
      rfl, rfl, rfl, rfl, rfl, rfl, rfl, rfl, rfl, rfl, rfl, rfl⟩

/-- Witness for C10 at a concrete failing and a concrete succeeding backend
outcome. -/
theorem updateApplicationStatus_spec_witness :
    (updateApplicationStatus { updateError := some "boom" }
        { resumes := [], applications := [] } [] "a1" .reviewed).1
      = { success := false, error := some "boom" } ∧
    (updateApplicationStatus { updateError := none }
        { resumes := [], applications := [] } [] "a1" .reviewed).1
      = { success := true, error := none } :=
  ⟨((updateApplicationStatus_spec { updateError := some "boom" }
      { resumes := [], applications := [] } [] "a1" .reviewed).1 "boom" rfl).1,
   ((updateApplicationStatus_spec { updateError := none }
      { resumes := [], applications := [] } [] "a1" .reviewed).2.1 rfl).1⟩

end ATS
